import Mathlib

/-!
Verification of the serial terminal program `term.c` (a full-duplex serial
terminal relay with a suspend/resume handshake for file transfers).

The development shallowly embeds the pieces of `src/term.c` that the claims
are about:

* the downlink loop (child process, `main`, lines 290-308): read a block from
  the serial line, mask every byte to 7 bits, write the block to the user
  terminal and append the same block to the log sink when one is open;
* the uplink loop (parent process, `main`, lines 320-334): read one keyboard
  byte, mask it to 7 bits, divert to `proto_xfer` on the escape character
  (`PROTO_CHAR`, Control-Z), otherwise map `\n` to `\r` unless `-r` was given
  and write the byte to the serial line;
* the sub-command dispatch `proto_xfer` (lines 448-487);
* the serial-line configuration `setup_serial` (lines 106-143), over a record
  model of the `termios` flags the function touches;
* the filename prompt loop `prompt_read` (lines 346-371);
* the shutdown routines `done` (lines 88-95) and `do_term` (lines 57-64), and
  the exit paths of the program, as event traces;
* the SIGUSR1/SIGUSR2 pause/resume handshake between the two processes
  (lines 43-54 and 324-328), as a small transition system in which `kill`
  posts a signal and delivery is a separate, asynchronously scheduled step.

Bytes are modelled as `Nat` (the C code reads `char`s and immediately masks
with `0x7F`, so only the low 8 bits ever matter); every definition is
executable so that concrete runs can be settled by `decide`.
-/

namespace Term

/-- `PROTO_CHAR` (src/term.c:40): `'\32'` in C is octal 32 = 26 = Control-Z,
the escape character that starts a protocol transfer. -/
def PROTO_CHAR : Nat := 26

/-- `BUFSIZE` (src/term.c:18): maximum number of characters the downlink
reads from the serial line at a time. -/
def BUFSIZE : Nat := 30

/-- The 7-bit mask `c &= 0x7F` applied by both relay directions
(src/term.c:302, 321, 360, 458). -/
def mask7 (b : Nat) : Nat := b &&& 0x7F

/-! ## Downlink task (child process loop, src/term.c:290-308)

Each iteration reads a block `buf` of at most `BUFSIZE` bytes from the serial
line, masks every byte in place (`*p++ &= 0x7F`), writes the whole masked
block to the user terminal `ttyfd`, and, when a log file is open, `fwrite`s
the very same masked block to it.  The run below processes a list of such
blocks in arrival order; the pair of output streams it accumulates is the
user-terminal stream and the log-sink stream. -/

/-- Output streams produced by the downlink loop: bytes written to the user
terminal and bytes appended to the log sink. -/
structure DownlinkOut where
  userOut : List Nat
  logOut : List Nat
deriving DecidableEq

/-- The downlink loop of src/term.c:290-308 applied to the successive blocks
returned by `read`: each block is masked byte-for-byte, written whole to the
user terminal, and appended whole to the log sink when `logOpen`. -/
def downlinkRun (logOpen : Bool) : List (List Nat) → DownlinkOut
  | [] => { userOut := [], logOut := [] }
  | buf :: rest =>
    let masked := buf.map mask7
    let r := downlinkRun logOpen rest
    { userOut := masked ++ r.userOut,
      logOut := if logOpen then masked ++ r.logOut else r.logOut }

/-! ## Uplink task and sub-command dispatch (src/term.c:320-334, 448-487) -/

/-- Observable actions of the uplink process: signals sent to the downlink
child, bytes written to the serial line, transfer invocations, the serial
reconfiguration after a transfer, the help message, and session quit. -/
inductive Event where
  | pause              -- kill(child, SIGUSR1)  (src/term.c:325)
  | resume             -- kill(child, SIGUSR2)  (src/term.c:327)
  | writeSerial (b : Nat)  -- write(rs232, &c, 1)
  | runReceive         -- rx_xfer(ttyfd)        (src/term.c:474)
  | runSend            -- tx_xfer(ttyfd)        (src/term.c:480)
  | reconfigureSerial  -- setup_serial(rs232)   (src/term.c:475, 481)
  | writeUserHelp      -- write(ttyfd, helpmsg) (src/term.c:485)
  | quitSession        -- done()                (src/term.c:468)
deriving DecidableEq

/-- The byte the uplink writes for a masked non-escape byte `c`
(src/term.c:330-333): `\n` becomes `\r` unless `-r` (raw keyboard) was
given. -/
def uplinkByte (raw_kbd : Bool) (c : Nat) : Nat :=
  if raw_kbd = false ∧ c = 10 then 13 else c

/-- Whether a masked sub-command byte quits the session
(src/term.c:467: `'q'` = 113 or `'Q'` = 81). -/
def isQuitCmd (c : Nat) : Bool := c = 113 || c = 81

/-- `proto_xfer` (src/term.c:448-487) on the sub-command byte it reads from
the keyboard: mask to 7 bits, then
  escape character itself → write it literally to the serial line;
  `q`/`Q` (113/81)        → `done()`, i.e. quit the session;
  `r`/`R` (114/82)        → `rx_xfer` then `setup_serial`;
  `s`/`S`/`t`/`T` (115/83/116/84) → `tx_xfer` then `setup_serial`;
  anything else           → write the help message to the user terminal. -/
def protoXfer (b : Nat) : List Event :=
  let c := mask7 b
  if c = PROTO_CHAR then [Event.writeSerial c]
  else if c = 113 ∨ c = 81 then [Event.quitSession]
  else if c = 114 ∨ c = 82 then [Event.runReceive, Event.reconfigureSerial]
  else if c = 115 ∨ c = 83 ∨ c = 116 ∨ c = 84 then
    [Event.runSend, Event.reconfigureSerial]
  else [Event.writeUserHelp]

/-- The uplink loop (src/term.c:320-334) over a list of keyboard bytes.
Each byte is masked to 7 bits.  The escape character sends SIGUSR1 to the
downlink (`pause`), runs `proto_xfer` on the next keyboard byte, and — when
`proto_xfer` returns, i.e. on anything but quit — sends SIGUSR2 (`resume`)
and continues.  A trailing escape with no following byte leaves `proto_xfer`
blocked in its `read` retry loop, so the trace ends after the pause.  Any
other byte is written to the serial line after the newline mapping. -/
def uplinkRun (raw_kbd : Bool) : List Nat → List Event
  | [] => []
  | b :: rest =>
    if mask7 b = PROTO_CHAR then
      match rest with
      | [] => [Event.pause]
      | b2 :: rest2 =>
        Event.pause ::
          (protoXfer b2 ++
            (if isQuitCmd (mask7 b2) then []
             else Event.resume :: uplinkRun raw_kbd rest2))
    else
      Event.writeSerial (uplinkByte raw_kbd (mask7 b)) :: uplinkRun raw_kbd rest

/-- Bytes written to the serial line in an uplink event trace. -/
def serialWrites : List Event → List Nat
  | [] => []
  | Event.writeSerial b :: es => b :: serialWrites es
  | _ :: es => serialWrites es

/-- Number of resume signals (SIGUSR2) in an uplink event trace. -/
def resumeCount : List Event → Nat
  | [] => 0
  | Event.resume :: es => resumeCount es + 1
  | _ :: es => resumeCount es

/-- Number of transfer invocations (`rx_xfer` or `tx_xfer`) in a trace. -/
def transferCount : List Event → Nat
  | [] => 0
  | Event.runReceive :: es => transferCount es + 1
  | Event.runSend :: es => transferCount es + 1
  | _ :: es => transferCount es

/-! ## Serial-line configuration (`setup_serial`, src/term.c:106-143)

The `termios` words are modelled as a record holding, as named fields, the
individual flag bits the function reads or writes (Linux `termios` bits
ECHO/ICANON/ISIG in `c_lflag`, OPOST in `c_oflag`, CSIZE/CSTOPB/PARENB/
PARODD/CLOCAL in `c_cflag`), a `Nat` for the remaining bits of each word
(which the function leaves untouched, except `c_iflag` which it zeroes
wholesale), the `VMIN`/`VTIME` control characters, and the input/output
speeds. -/

/-- The two CSIZE bits of `c_cflag`: character size CS5..CS8. -/
inductive CharSize where
  | cs5
  | cs6
  | cs7
  | cs8
deriving DecidableEq

/-- Model of the `struct termios` fields touched by `term.c`. -/
structure Termios where
  iflag : Nat
  oflag_opost : Bool
  oflag_rest : Nat
  lflag_echo : Bool
  lflag_icanon : Bool
  lflag_isig : Bool
  lflag_rest : Nat
  cflag_csize : CharSize
  cflag_cstopb : Bool
  cflag_parenb : Bool
  cflag_parodd : Bool
  cflag_clocal : Bool
  cflag_rest : Nat
  vmin : Nat
  vtime : Nat
  ispeed : Nat
  ospeed : Nat
deriving DecidableEq

/-- Linux baud-rate constant `B300`. -/
def B300 : Nat := 7
/-- Linux baud-rate constant `B1200`. -/
def B1200 : Nat := 9
/-- Linux baud-rate constant `B2400`. -/
def B2400 : Nat := 11
/-- Linux baud-rate constant `B9600` (the default, src/term.c:21). -/
def B9600 : Nat := 13
/-- Linux baud-rate constant `B19200`. -/
def B19200 : Nat := 14
/-- Linux baud-rate constant `B38400`. -/
def B38400 : Nat := 15
/-- Linux baud-rate constant `B115200`. -/
def B115200 : Nat := 4098

/-- `setup_serial` (src/term.c:106-143) as a function on the line's current
`termios` (the result of `tcgetattr`), following the source statement by
statement:

  `c_lflag &= ~(ECHO|ICANON|ISIG)`; `c_cflag |= CLOCAL`;
  `c_cflag &= ~CSIZE` then `|= CS7` or `|= CS8`; `c_cflag &= ~CSTOPB`;
  then the parity chain (src/term.c:126-130):
    `if (!parodd && !pareven) c_cflag &= ~PARENB; else if (parodd) c_cflag |= PARODD;`
  (note: no branch ever sets PARENB, and the even-parity case runs no code);
  `c_oflag &= ~OPOST`; `c_iflag = 0`; `VMIN = BUFSIZE`; `VTIME = 1`;
  `cfsetispeed`/`cfsetospeed` with the selected baud constant. -/
def setup_serial (seven_bits podd peven : Bool) (baud : Nat) (t0 : Termios) :
    Termios :=
  let t1 := { t0 with lflag_echo := false, lflag_icanon := false,
                      lflag_isig := false }
  let t2 := { t1 with cflag_clocal := true }
  let t3 := { t2 with cflag_csize := if seven_bits then CharSize.cs7
                                     else CharSize.cs8 }
  let t4 := { t3 with cflag_cstopb := false }
  let t5 := if podd = false ∧ peven = false then { t4 with cflag_parenb := false }
            else if podd = true then { t4 with cflag_parodd := true }
            else t4
  let t6 := { t5 with oflag_opost := false, iflag := 0 }
  let t7 := { t6 with vmin := BUFSIZE, vtime := 1 }
  { t7 with ispeed := baud, ospeed := baud }

/-- A line is configured for odd parity when parity is enabled and the odd
bit is set. -/
def oddParityConfigured (t : Termios) : Bool := t.cflag_parenb && t.cflag_parodd

/-- A line is configured for even parity when parity is enabled and the odd
bit is clear. -/
def evenParityConfigured (t : Termios) : Bool :=
  t.cflag_parenb && !t.cflag_parodd

/-- A typical initial serial-line state before `setup_serial` runs: cooked
mode, 8 data bits, parity disabled.  (The concrete `rest` words are
arbitrary non-zero values to witness that they are carried through.) -/
def initialLine : Termios :=
  { iflag := 1, oflag_opost := true, oflag_rest := 4,
    lflag_echo := true, lflag_icanon := true, lflag_isig := true,
    lflag_rest := 2, cflag_csize := CharSize.cs8, cflag_cstopb := false,
    cflag_parenb := false, cflag_parodd := false, cflag_clocal := false,
    cflag_rest := 128, vmin := 1, vtime := 0,
    ispeed := B9600, ospeed := B9600 }

/-! ## Filename prompt (`prompt_read`, src/term.c:346-371)

The C function does `len -= 1` (room for the terminator), writes the prompt,
then loops: read one byte (retrying while `read` returns 0), mask it to
7 bits, echo it back to the user terminal, store it into the buffer only if
room remains, and stop once the masked byte is `\n` (10) or `\r` (13).
Finally `buf -= 1; *buf = '\0'` overwrites the byte *before the current
store position* with the terminator. -/

/-- The store loop of `prompt_read`: given the remaining room and the list
of keyboard bytes, returns the list of bytes actually stored in the buffer
(including the terminating `\n`/`\r` when it was stored), or `none` when the
input ends before any terminator arrives (the C code would block
forever in its `read` retry loop). -/
def promptReadLoop (room : Nat) : List Nat → Option (List Nat)
  | [] => none
  | b :: rest =>
    let c := mask7 b
    if room = 0 then
      if c = 10 ∨ c = 13 then some [] else promptReadLoop 0 rest
    else
      if c = 10 ∨ c = 13 then some [c]
      else
        match promptReadLoop (room - 1) rest with
        | none => none
        | some s => some (c :: s)

/-- `prompt_read` (src/term.c:346-371) as a function from the buffer length
`len` and the keyboard byte stream to the resulting filename (the stored
bytes with the final `buf -= 1; *buf = '\0'` dropping the last stored
byte). -/
def prompt_read (len : Nat) (input : List Nat) : Option (List Nat) :=
  (promptReadLoop (len - 1) input).map (fun s => s.dropLast)

/-- The bytes `prompt_read` consumes from the keyboard and echoes back to
the user terminal (each masked to 7 bits, the terminator included),
independent of the buffer bound. -/
def promptEchoed : List Nat → Option (List Nat)
  | [] => none
  | b :: rest =>
    let c := mask7 b
    if c = 10 ∨ c = 13 then some [c]
    else
      match promptEchoed rest with
      | none => none
      | some s => some (c :: s)

/-! ## Shutdown routines and exit paths (src/term.c:57-64, 88-95, 290-341)

`done()` (src/term.c:88-95) runs in the parent (uplink) process:
`kill(child, SIGTERM)`, `tcsetattr(ttyfd, TCSAFLUSH, &otty)` (restore the
startup terminal snapshot), `write(ttyfd, "Exiting\n", 8)` — note `ttyfd` is
`dup(1)` taken *before* the serial device replaced file descriptors 0/1
(src/term.c:255), i.e. the user's terminal, not the serial line — and
`exit(0)`.  `do_term()` (src/term.c:57-64) is the child's SIGTERM handler:
close the log file if open, `exit(0)`. -/

/-- Observable actions on the session-termination paths. -/
inductive LifeEvent where
  | signalChildTerm        -- kill(child, SIGTERM)
  | restoreTerminal        -- tcsetattr(ttyfd, TCSAFLUSH, &otty)
  | writeUser (s : String)   -- write(ttyfd, ...): the user's terminal
  | writeSerial (s : String) -- write to the serial line (fd 0/1)
  | closeLog               -- fclose(logfp)
  | exitStatus (n : Nat)   -- exit(n)
deriving DecidableEq

/-- The event trace of `done()` (src/term.c:88-95), in source order. -/
def doneEvents : List LifeEvent :=
  [LifeEvent.signalChildTerm, LifeEvent.restoreTerminal,
   LifeEvent.writeUser "Exiting\n", LifeEvent.exitStatus 0]

/-- The event trace of the child's SIGTERM handler `do_term()`
(src/term.c:57-64). -/
def do_termEvents (logOpen : Bool) : List LifeEvent :=
  (if logOpen then [LifeEvent.closeLog] else []) ++ [LifeEvent.exitStatus 0]

/-- Number of terminal-mode restorations in a termination trace. -/
def restoreCountIn : List LifeEvent → Nat
  | [] => 0
  | LifeEvent.restoreTerminal :: es => restoreCountIn es + 1
  | _ :: es => restoreCountIn es

/-- Whether a termination trace writes anything to the serial line. -/
def writesSerialLine : List LifeEvent → Bool
  | [] => false
  | LifeEvent.writeSerial _ :: _ => true
  | _ :: es => writesSerialLine es

/-- The exit paths of the program, read off `src/term.c`:
  `cliError` — `usage()`/`bad_parity()`/log-open failure, exit(1) before any
    device is touched (src/term.c:67-82, 199-202);
  `openFail` — the serial device cannot be opened, exit(1) before the
    terminal is put in raw mode (src/term.c:258-261, raw mode at 267-274);
  `forkFail` — `fork()` fails after raw mode is set, exit(1) with no
    restore (src/term.c:311-314);
  `quitCommand` — escape-then-`q`: `proto_xfer` calls `done()`
    (src/term.c:467-469);
  `uplinkEOF` / `uplinkError` — the keyboard `read` returns 0 / -1, the
    uplink loop exits and calls `done()` (src/term.c:320, 335-338);
  `downlinkFatal` — the child's serial `read` fails with an error other
    than EINTR: `perror("child"); exit(1);` with no restore
    (src/term.c:293-298);
  `childSigterm` — the child receives SIGTERM and runs `do_term()`, which
    closes the log and exits without restoring (src/term.c:57-64);
  `parentForcedTerm` — the parent is killed by an unhandled fatal signal;
    it installs no handler (only the child handles SIGTERM, src/term.c:288),
    so the process dies without running `done()`. -/
inductive ExitPath where
  | cliError
  | openFail
  | forkFail
  | quitCommand
  | uplinkEOF
  | uplinkError
  | downlinkFatal
  | childSigterm
  | parentForcedTerm
deriving DecidableEq

/-- Whether the controlling terminal has already been put in raw mode
(src/term.c:267-274) when the given exit path is taken. -/
def rawModeSetBefore : ExitPath → Bool
  | ExitPath.cliError => false
  | ExitPath.openFail => false
  | _ => true

/-- Whether the exit path runs `tcsetattr(ttyfd, TCSAFLUSH, &otty)` — the
restoration of the startup terminal snapshot — before exiting.  Only the
three paths that reach `done()` do (src/term.c:92). -/
def restoresTerminal : ExitPath → Bool
  | ExitPath.quitCommand => true
  | ExitPath.uplinkEOF => true
  | ExitPath.uplinkError => true
  | _ => false

/-- How many times the snapshot is restored on the given exit path: `done()`
restores once and then exits, every other path restores zero times. -/
def restoreCount (p : ExitPath) : Nat := if restoresTerminal p then 1 else 0

/-- The exit paths claim C3 quantifies over: normal quit, fatal I/O error in
either relay direction, and forced termination. -/
def claimedExitPaths : List ExitPath :=
  [ExitPath.quitCommand, ExitPath.uplinkEOF, ExitPath.uplinkError,
   ExitPath.downlinkFatal, ExitPath.parentForcedTerm]

/-! ## The pause/resume handshake (src/term.c:43-54, 324-328)

On the escape character the parent runs `kill(child, SIGUSR1)`, then
`proto_xfer` (the transfer), then `kill(child, SIGUSR2)`.  The child's
SIGUSR1 handler calls `pause()`, which blocks until SIGUSR2 arrives.
`kill` only *posts* a signal: it returns as soon as the signal is pending,
and the child observes it at some later, independently scheduled moment.
The model below is a transition system over one escape-transfer round with
that split: `sendPause`/`sendResume` are the parent's `kill` calls (which
set the pending bit), `startTransfer` is the parent entering the transfer
(reading the serial line), and `deliverUsr1`/`deliverUsr2` are the
asynchronous deliveries to the child. -/

/-- Parent (uplink) control point within one escape-transfer round. -/
inductive ParentPC where
  | relaying      -- in the keyboard loop, before the escape
  | pauseSent     -- after kill(child, SIGUSR1), before the transfer
  | transferring  -- inside proto_xfer / the external transfer program
  | resumed       -- after kill(child, SIGUSR2)
deriving DecidableEq

/-- Child (downlink) control point. -/
inductive ChildPC where
  | reading  -- in the serial read loop
  | paused   -- blocked in pause() inside the SIGUSR1 handler
deriving DecidableEq

/-- Joint state: both control points plus the pending (posted but not yet
delivered) SIGUSR1/SIGUSR2 bits. -/
structure SysState where
  parent : ParentPC
  child : ChildPC
  usr1Pending : Bool
  usr2Pending : Bool
deriving DecidableEq

/-- One step of the handshake: the parent's three actions in program order
(src/term.c:325-327), and the two asynchronous signal deliveries
(src/term.c:49-54: the SIGUSR1 handler blocks in `pause()`; SIGUSR2 makes
`pause()` return). -/
inductive HandshakeStep : SysState → SysState → Prop where
  | sendPause (c : ChildPC) (u1 u2 : Bool) :
      HandshakeStep ⟨ParentPC.relaying, c, u1, u2⟩ ⟨ParentPC.pauseSent, c, true, u2⟩
  | startTransfer (c : ChildPC) (u1 u2 : Bool) :
      HandshakeStep ⟨ParentPC.pauseSent, c, u1, u2⟩ ⟨ParentPC.transferring, c, u1, u2⟩
  | sendResume (c : ChildPC) (u1 u2 : Bool) :
      HandshakeStep ⟨ParentPC.transferring, c, u1, u2⟩ ⟨ParentPC.resumed, c, u1, true⟩
  | deliverUsr1 (p : ParentPC) (u2 : Bool) :
      HandshakeStep ⟨p, ChildPC.reading, true, u2⟩ ⟨p, ChildPC.paused, false, u2⟩
  | deliverUsr2 (p : ParentPC) (c : ChildPC) (u1 : Bool) :
      HandshakeStep ⟨p, c, u1, true⟩ ⟨p, ChildPC.reading, u1, false⟩

/-- Initial state of a round: parent relaying, child reading, no pending
signals. -/
def initState : SysState :=
  ⟨ParentPC.relaying, ChildPC.reading, false, false⟩

/-- States reachable in the handshake transition system. -/
inductive HandshakeReach : SysState → Prop where
  | init : HandshakeReach initState
  | step {s t : SysState} :
      HandshakeReach s → HandshakeStep s t → HandshakeReach t

/-! ## Theorems -/

/-- C1: downlink relay correctness.  For every sequence of blocks read from
the serial line, the user output stream is the 7-bit-masked concatenation of
the blocks in arrival order, and the log sink receives exactly the same
masked sequence when configured (and nothing otherwise) — each block is
written and logged whole, so the two streams agree block for block. -/
theorem C1_downlink_relay (logOpen : Bool) (blocks : List (List Nat)) :
    (downlinkRun logOpen blocks).userOut = (blocks.flatten).map mask7 ∧
    (downlinkRun logOpen blocks).logOut =
      (if logOpen then (blocks.flatten).map mask7 else []) := by
  induction blocks with
  | nil => constructor <;> cases logOpen <;> rfl
  | cons buf rest ih =>
    obtain ⟨ih1, ih2⟩ := ih
    constructor
    · simp [downlinkRun, ih1]
    · cases logOpen
      · simpa [downlinkRun] using ih2
      · simp [downlinkRun, ih2]

/-- C2 counterexample: the claim quantifies over every keyboard input byte
not equal to the escape character, but the code compares the escape
character against the *masked* byte (src/term.c:321-324).  The 8-bit byte
0x9A = 154 differs from the escape character 26, yet the uplink diverts it
into command mode (the trace starts with the pause signal) instead of
writing its masked value to the serial line. -/
theorem C2_uplink_counterexample :
    ¬ (∀ (raw_kbd : Bool) (b : Nat), b < 256 → b ≠ PROTO_CHAR →
        uplinkRun raw_kbd [b] =
          [Event.writeSerial
            (if raw_kbd = false ∧ mask7 b = 10 then 13 else mask7 b)]) := by
  intro h
  exact absurd (h false 154 (by decide) (by decide)) (by decide)

/-- C2 amended: for every keyboard byte whose 7-bit-masked value is not the
escape character, the uplink writes exactly one byte to the serial line —
the masked byte, except that with raw keyboard off a masked newline is
written as carriage return — and continues with the rest of the input. -/
theorem C2_uplink_amended (raw_kbd : Bool) (b : Nat) (rest : List Nat)
    (h : mask7 b ≠ PROTO_CHAR) :
    uplinkRun raw_kbd (b :: rest) =
      Event.writeSerial (if raw_kbd = false ∧ mask7 b = 10 then 13 else mask7 b)
        :: uplinkRun raw_kbd rest := by
  cases rest <;> simp [uplinkRun, uplinkByte, h]

/-- C2 witness: the amended theorem evaluated at the byte `A` (65) with raw
keyboard off. -/
theorem C2_uplink_amended_witness :
    uplinkRun false [65] = [Event.writeSerial 65] := by
  have h := C2_uplink_amended false 65 [] (by decide)
  rw [h]
  decide

/-- C3 counterexample: restoration of the terminal snapshot does not happen
on every exit path the claim lists.  On the downlink fatal-I/O path the
child prints the error and exits without ever running `tcsetattr`
(src/term.c:293-298), so `restoreCount` is 0 there, refuting the claim that
every listed path restores exactly once. -/
theorem C3_restore_counterexample :
    ¬ (∀ p : ExitPath, p ∈ claimedExitPaths → restoreCount p = 1) := by
  intro h
  exact absurd (h ExitPath.downlinkFatal (by decide)) (by decide)

/-- C3 amended: the snapshot is restored exactly once on precisely the exit
paths that run `done()` — normal quit and end or error of the uplink input
stream — and the only paths that exit with the terminal never having been
put in raw mode are the CLI/usage errors and the serial-device open failure;
the downlink fatal-error path, the child's SIGTERM path, the fork-failure
path, and forced termination of the parent exit without restoring. -/
theorem C3_restore_amended (p : ExitPath) :
    (restoresTerminal p = true ↔
      (p = ExitPath.quitCommand ∨ p = ExitPath.uplinkEOF ∨
       p = ExitPath.uplinkError)) ∧
    (restoresTerminal p = true → restoreCount p = 1 ∧ rawModeSetBefore p = true) ∧
    (rawModeSetBefore p = false →
      restoreCount p = 0 ∧ (p = ExitPath.cliError ∨ p = ExitPath.openFail)) := by
  cases p <;> decide

/-- C3 witness: the amended theorem at the normal-quit path. -/
theorem C3_restore_amended_witness :
    restoreCount ExitPath.quitCommand = 1 ∧
    rawModeSetBefore ExitPath.quitCommand = true :=
  (C3_restore_amended ExitPath.quitCommand).2.1 (by decide)

/-- C4: sub-command dispatch after the escape character.  On the masked next
byte, `q`/`Q` quits the session, `r`/`R` runs a protocol receive, `s`/`S`/
`t`/`T` runs a protocol send, and any other byte (besides the escape
character itself) produces only the help message.  After a receive or send
the serial line is reconfigured (`setup_serial`) strictly before the resume
signal is sent to the downlink, and on quit no resume is ever sent. -/
theorem C4_subcommand_dispatch (raw_kbd : Bool) (b : Nat) (rest : List Nat) :
    (mask7 b ∉ ([26, 113, 81, 114, 82, 115, 83, 116, 84] : List Nat) →
      protoXfer b = [Event.writeUserHelp]) ∧
    protoXfer 113 = [Event.quitSession] ∧
    protoXfer 81 = [Event.quitSession] ∧
    protoXfer 114 = [Event.runReceive, Event.reconfigureSerial] ∧
    protoXfer 82 = [Event.runReceive, Event.reconfigureSerial] ∧
    protoXfer 115 = [Event.runSend, Event.reconfigureSerial] ∧
    protoXfer 83 = [Event.runSend, Event.reconfigureSerial] ∧
    protoXfer 116 = [Event.runSend, Event.reconfigureSerial] ∧
    protoXfer 84 = [Event.runSend, Event.reconfigureSerial] ∧
    uplinkRun raw_kbd (PROTO_CHAR :: 114 :: rest) =
      [Event.pause, Event.runReceive, Event.reconfigureSerial, Event.resume]
        ++ uplinkRun raw_kbd rest ∧
    uplinkRun raw_kbd (PROTO_CHAR :: 115 :: rest) =
      [Event.pause, Event.runSend, Event.reconfigureSerial, Event.resume]
        ++ uplinkRun raw_kbd rest ∧
    uplinkRun raw_kbd (PROTO_CHAR :: 113 :: rest) =
      [Event.pause, Event.quitSession] := by
  refine ⟨?_, by decide, by decide, by decide, by decide, by decide, by decide,
          by decide, by decide, rfl, rfl, rfl⟩
  intro h
  simp only [List.mem_cons, List.not_mem_nil, or_false, not_or] at h
  obtain ⟨h26, h113, h81, h114, h82, h115, h83, h116, h84⟩ := h
  simp [protoXfer, PROTO_CHAR, h26, h113, h81, h114, h82, h115, h83, h116, h84]

/-- C4 witness: the byte `x` (120) is none of the sub-commands, and its
dispatch is exactly the help message. -/
theorem C4_subcommand_dispatch_witness :
    protoXfer 120 = [Event.writeUserHelp] :=
  (C4_subcommand_dispatch false 120 []).1 (by decide)

/-- C5: escape-then-escape passthrough.  The keyboard input escape, escape
produces the trace pause, one literal masked escape byte written to the
serial line, resume — exactly one serial byte, exactly one resume, no
transfer invoked — and the relay continues on the rest of the input. -/
theorem C5_escape_escape_passthrough (raw_kbd : Bool) (rest : List Nat) :
    uplinkRun raw_kbd (PROTO_CHAR :: PROTO_CHAR :: rest) =
      Event.pause :: Event.writeSerial PROTO_CHAR :: Event.resume ::
        uplinkRun raw_kbd rest ∧
    serialWrites
      [Event.pause, Event.writeSerial PROTO_CHAR, Event.resume] = [PROTO_CHAR] ∧
    resumeCount
      [Event.pause, Event.writeSerial PROTO_CHAR, Event.resume] = 1 ∧
    transferCount
      [Event.pause, Event.writeSerial PROTO_CHAR, Event.resume] = 0 :=
  ⟨rfl, rfl, rfl, rfl⟩

/-- C6: `setup_serial` evaluated at the failing input (even parity selected,
starting from a line with parity disabled).  The parity if-chain
(src/term.c:126-130) never sets PARENB: selecting even parity executes no
code at all, and selecting odd parity sets only PARODD, so neither selection
actually enables the requested parity — while the raw-local-mode, bit-width,
speed and bounded-wait (VMIN = BUFSIZE, VTIME = 1) parts of the claim do
hold at the same input. -/
theorem C6_parity_not_applied :
    evenParityConfigured (setup_serial false false true B9600 initialLine) = false ∧
    oddParityConfigured (setup_serial false true false B9600 initialLine) = false ∧
    (setup_serial false false false B9600 initialLine).cflag_parenb = false ∧
    (setup_serial true false true B9600 initialLine).cflag_csize = CharSize.cs7 ∧
    (setup_serial false false true B9600 initialLine).cflag_clocal = true ∧
    (setup_serial false false true B9600 initialLine).lflag_echo = false ∧
    (setup_serial false false true B9600 initialLine).lflag_icanon = false ∧
    (setup_serial false false true B9600 initialLine).vmin = BUFSIZE ∧
    (setup_serial false false true B9600 initialLine).vtime = 1 ∧
    (setup_serial false false true B9600 initialLine).ispeed = B9600 ∧
    (setup_serial false false true B9600 initialLine).ospeed = B9600 := by
  decide

/-- C7 counterexample: the termination actions never write to the serial
line.  The farewell notice `"Exiting\n"` is written to `ttyfd`, the user's
terminal (src/term.c:93; `ttyfd = dup(1)` at line 255, taken before the
serial device replaced descriptors 0/1), refuting the claim that the
farewell goes to the serial line. -/
theorem C7_termination_counterexample :
    writesSerialLine doneEvents = false ∧
    writesSerialLine (do_termEvents true) = false ∧
    LifeEvent.writeUser "Exiting\n" ∈ doneEvents := by
  refine ⟨rfl, rfl, ?_⟩
  simp [doneEvents]

/-- C7 amended: on entering Terminating the parent stops the downlink child
with SIGTERM, restores the terminal snapshot exactly once, writes the
farewell notice to the user's terminal (not the serial line), and exits with
status 0 regardless of the originating error; the child's SIGTERM handler
closes the log sink exactly when one is open and also exits with status 0. -/
theorem C7_termination_amended :
    restoreCountIn doneEvents = 1 ∧
    doneEvents.head? = some LifeEvent.signalChildTerm ∧
    (doneEvents.drop 1).head? = some LifeEvent.restoreTerminal ∧
    LifeEvent.writeUser "Exiting\n" ∈ doneEvents ∧
    doneEvents.getLast? = some (LifeEvent.exitStatus 0) ∧
    LifeEvent.closeLog ∈ do_termEvents true ∧
    LifeEvent.closeLog ∉ do_termEvents false ∧
    (do_termEvents true).getLast? = some (LifeEvent.exitStatus 0) ∧
    (do_termEvents false).getLast? = some (LifeEvent.exitStatus 0) := by
  refine ⟨rfl, rfl, rfl, ?_, rfl, ?_, ?_, rfl, rfl⟩ <;>
    simp [doneEvents, do_termEvents]

/-- C8: `prompt_read` evaluated at the failing input.  With buffer length 3
(capacity 2 plus the NUL) and keyboard input `a`, `b`, CR, the terminator is
never stored (the buffer is already full), so the final
`buf -= 1; *buf = '\0'` (src/term.c:369-370) overwrites the stored data byte
`b` instead of the terminator its comment promises: the resulting filename
is `"a"`, not the collected-bytes-sans-terminator `"ab"` the claim states.
With a large enough buffer the same input yields `"ab"` as claimed, and in
both cases every consumed byte, excess included, is masked and echoed. -/
theorem C8_prompt_read_truncation :
    prompt_read 3 [97, 98, 13] = some [97] ∧
    prompt_read 60 [97, 98, 13] = some [97, 98] ∧
    promptEchoed [97, 98, 13] = some [97, 98, 13] ∧
    prompt_read 3 [97, 98, 99, 100, 13] = some [97] ∧
    promptEchoed [97, 98, 99, 100, 13] = some [97, 98, 99, 100, 13] := by
  decide

/-- Invariant of the handshake system: while the parent is between its
`kill(child, SIGUSR1)` and `kill(child, SIGUSR2)`, the pause signal is
either still pending or already observed (the child is blocked in
`pause()`); and the resume signal can only be pending after the parent has
sent it. -/
theorem handshake_inv {s : SysState} (hs : HandshakeReach s) :
    ((s.parent = ParentPC.pauseSent ∨ s.parent = ParentPC.transferring) →
      (s.usr1Pending = true ∨ s.child = ChildPC.paused)) ∧
    (s.usr2Pending = true → s.parent = ParentPC.resumed) := by
  induction hs with
  | init =>
    exact ⟨fun hp => absurd hp (by decide), fun hu => absurd hu (by decide)⟩
  | step hs1 hstep ih =>
    cases hstep with
    | sendPause c u1 u2 =>
      exact ⟨fun _ => Or.inl rfl, fun hu2 => absurd (ih.2 hu2) (by simp)⟩
    | startTransfer c u1 u2 =>
      exact ⟨fun _ => ih.1 (Or.inl rfl), fun hu2 => absurd (ih.2 hu2) (by simp)⟩
    | sendResume c u1 u2 =>
      exact ⟨fun hp => absurd hp (by simp), fun _ => rfl⟩
    | deliverUsr1 p u2 =>
      exact ⟨fun _ => Or.inr rfl, fun hu2 => ih.2 hu2⟩
    | deliverUsr2 p c u1 =>
      refine ⟨fun hp => ?_, fun hu2 => absurd hu2 (by simp)⟩
      have hres : p = ParentPC.resumed := ih.2 rfl
      subst hres
      exact absurd hp (by simp)

/-- C9 counterexample: the handshake is not strict.  `kill` only posts
SIGUSR1; nothing in src/term.c:325-326 waits for the child to observe it, so
the schedule pause-posted, transfer-started, signal-not-yet-delivered is
reachable: the parent is transferring while the child is still in its read
loop, refuting the claim that a transfer never starts without a pause
acknowledgment. -/
theorem C9_pause_counterexample :
    ¬ (∀ s : SysState, HandshakeReach s →
        s.parent = ParentPC.transferring → s.child = ChildPC.paused) := by
  intro h
  have h1 : HandshakeReach ⟨ParentPC.pauseSent, ChildPC.reading, true, false⟩ :=
    HandshakeReach.step HandshakeReach.init
      (HandshakeStep.sendPause ChildPC.reading false false)
  have h2 : HandshakeReach ⟨ParentPC.transferring, ChildPC.reading, true, false⟩ :=
    HandshakeReach.step h1
      (HandshakeStep.startTransfer ChildPC.reading true false)
  exact absurd (h _ h2 rfl) (by decide)

/-- C9 amended: the pause signal is posted before the transfer starts, but
its observation is not awaited — in every reachable state in which the
parent is inside the transfer, the pause signal is pending or the child has
observed it and is blocked in `pause()`; the code guarantees no more than
that. -/
theorem C9_pause_amended {s : SysState} (hs : HandshakeReach s)
    (hp : s.parent = ParentPC.transferring) :
    s.usr1Pending = true ∨ s.child = ChildPC.paused :=
  (handshake_inv hs).1 (Or.inr hp)

/-- C9 witness: the amended theorem at the reachable state in which the
pause was delivered before the transfer started. -/
theorem C9_pause_amended_witness :
    (⟨ParentPC.transferring, ChildPC.paused, false, false⟩ : SysState).usr1Pending
        = true ∨
    (⟨ParentPC.transferring, ChildPC.paused, false, false⟩ : SysState).child
        = ChildPC.paused := by
  have h1 : HandshakeReach ⟨ParentPC.pauseSent, ChildPC.reading, true, false⟩ :=
    HandshakeReach.step HandshakeReach.init
      (HandshakeStep.sendPause ChildPC.reading false false)
  have h2 : HandshakeReach ⟨ParentPC.pauseSent, ChildPC.paused, false, false⟩ :=
    HandshakeReach.step h1 (HandshakeStep.deliverUsr1 ParentPC.pauseSent false)
  have h3 : HandshakeReach ⟨ParentPC.transferring, ChildPC.paused, false, false⟩ :=
    HandshakeReach.step h2
      (HandshakeStep.startTransfer ChildPC.paused false false)
  exact C9_pause_amended h3 rfl

/-- C10: escape detection happens on the 7-bit-masked byte.  The uplink
diverts into command mode (its trace starts with the pause signal) exactly
when the masked keyboard byte equals the escape character 26; in particular
the 8-bit byte 0x9A = 154 diverts instead of being relayed. -/
theorem C10_escape_on_masked_byte (raw_kbd : Bool) (b : Nat) (rest : List Nat) :
    ((uplinkRun raw_kbd (b :: rest)).head? = some Event.pause ↔
      mask7 b = PROTO_CHAR) ∧
    (uplinkRun raw_kbd (154 :: rest)).head? = some Event.pause := by
  have h154 : mask7 154 = PROTO_CHAR := by decide
  constructor
  · by_cases h : mask7 b = PROTO_CHAR
    · cases rest <;> simp [uplinkRun, h]
    · cases rest <;> simp [uplinkRun, h]
  · cases rest <;> simp [uplinkRun, h154]

end Term
